import Mathlib

set_option linter.unusedVariables false

/-!
Verification of the necklace-graph layout engine in
`src/src/components/ForceTest.tsx`.

The component lays out `n` nodes on a circle: it computes fixed circular
target positions, synthesizes ring links carrying fixed random segment
offsets, runs a d3 force simulation whose custom "snap" force pulls each
node toward its target, and renders each link as a wavy path through
interpolated waypoints.

Modelling conventions:
* JS numbers are modelled as real numbers `ℝ`; the single reachable
  non-finite value (`0 / 0 = NaN` in `multiSegmentWavyPathStable` when
  `segments = 0`) is modelled by `Option ℝ`, with `none` standing for NaN
  and the `j*` operations implementing JS NaN propagation.
* Possibly-`undefined` velocities (`vx?: number`) are `Option ℝ`; the
  source reads them as `(node.vx || 0)`, modelled by `Option.getD · 0`.
* JS object references inside links (`source: nodes[i]`) are modelled as
  indices into the node list.
* `Math.random()` call sequences are modelled by explicit streams
  `ℕ → ℝ` (one stream per link, indexed by call number).
* d3-internal force passes (many-body charge, centering, collision) and
  the velocity integrator are library code, not part of this repository;
  the per-tick step takes them as opaque node-list transformers. The
  repository's own per-tick code (the snap closure and the alpha update)
  is embedded concretely.
-/

namespace ForceTest

/-- A graph node: `interface Node` of the source. `x, y` are set during
initialization before any read; `vx, vy` start `undefined` (`none`). -/
structure Node where
  id : String
  title : String
  image : String
  x : ℝ
  y : ℝ
  vx : Option ℝ
  vy : Option ℝ

instance : Inhabited Node := ⟨⟨"", "", "", 0, 0, none, none⟩⟩

/-- The raw datum of a node before the simulation touches it
(the entries of `placeholderData.nodes`). -/
structure NodeData where
  id : String
  title : String
  image : String
deriving Repr, DecidableEq

/-- A node as it enters the effect: data fields copied, position fields
not yet initialized (the source leaves `x, y` undefined until the
`Initialize positions` loop; we use `0`, overwritten before any read). -/
def mkNode (d : NodeData) : Node :=
  { id := d.id, title := d.title, image := d.image,
    x := 0, y := 0, vx := none, vy := none }

/-- The `config` object of the component. `numSegments` is a count
(the source value is `6`). -/
structure Config where
  width : ℝ
  height : ℝ
  nodeSize : ℝ
  radiusFactor : ℝ
  collisionPadding : ℝ
  snapStrength : ℝ
  jitterStrength : ℝ
  numSegments : ℕ

/-- The concrete configuration in the source. -/
def config : Config :=
  { width := 1200, height := 1000, nodeSize := 60, radiusFactor := 0.4,
    collisionPadding := 5, snapStrength := 0.03, jitterStrength := 0.01,
    numSegments := 6 }

/-- Index-carrying list map, the pure rendering of
`list.map((elem, i) => ...)` / `list.forEach((elem, i) => ...)`. -/
def mapIdxFrom (f : ℕ → α → β) : ℕ → List α → List β
  | _, [] => []
  | k, a :: l => f k a :: mapIdxFrom f (k + 1) l

theorem length_mapIdxFrom (f : ℕ → α → β) :
    ∀ (k : ℕ) (l : List α), (mapIdxFrom f k l).length = l.length := by
  intro k l
  induction l generalizing k with
  | nil => rfl
  | cons a l ih => simp [mapIdxFrom, ih]

theorem getD_mapIdxFrom (f : ℕ → α → β) :
    ∀ (k : ℕ) (l : List α) (i : ℕ), i < l.length → ∀ (d : β) (d' : α),
      (mapIdxFrom f k l).getD i d = f (k + i) (l.getD i d') := by
  intro k l
  induction l generalizing k with
  | nil => intro i hi; exact absurd hi (by simp)
  | cons a l ih =>
    intro i hi d d'
    cases i with
    | zero => simp [mapIdxFrom]
    | succ j =>
      have hj : j < l.length := by simpa using hi
      simp only [mapIdxFrom, List.getD_cons_succ]
      rw [ih (k + 1) j hj d d']
      ring_nf

/-- The circular target of node `i` among `n` nodes:
`angle = (i / n) * 2 * Math.PI`,
`x = width / 2 + radius * cos(angle)`, `y = height / 2 + radius * sin(angle)`
with `radius = Math.min(width, height) * radiusFactor`. -/
noncomputable def targetOf (cfg : Config) (n : ℕ) (i : ℕ) : ℝ × ℝ :=
  let radius := min cfg.width cfg.height * cfg.radiusFactor
  let angle := ((i : ℝ) / (n : ℝ)) * 2 * Real.pi
  (cfg.width / 2 + radius * Real.cos angle,
   cfg.height / 2 + radius * Real.sin angle)

/-- `targets = nodes.map((_, i) => ...)`: the list of all `n` targets. -/
noncomputable def targets (cfg : Config) (n : ℕ) : List (ℝ × ℝ) :=
  mapIdxFrom (fun i _ => targetOf cfg n i) 0 (List.range n)

/-- The sample dataset `placeholderData.nodes` of the source. -/
def placeholderNodes : List NodeData :=
  [⟨"n0", "Node 0", "https://placehold.co/60x60"⟩,
   ⟨"n1", "Node 1", "https://placehold.co/60x60"⟩,
   ⟨"n2", "Node 2", "https://placehold.co/60x60"⟩,
   ⟨"n3", "Node 3", "https://placehold.co/60x60"⟩,
   ⟨"n4", "Node 4", "https://placehold.co/60x60"⟩]

/-- A link: `interface Link` of the source plus the `segmentOffsets`
field attached before the simulation starts. The JS object references
`source: nodes[i]`, `target: nodes[(i + 1) % n]` are modelled as indices
into the node list. -/
structure Link where
  source : ℕ
  target : ℕ
  segmentOffsets : List (ℝ × ℝ)

instance : Inhabited Link := ⟨⟨0, 0, []⟩⟩

/-- `links = nodes.map((node, i) => ({ source: nodes[i], target: nodes[(i + 1) % n] }))`.
`segmentOffsets` is not yet present (attached by a later loop). -/
def buildLinks (nodes : List Node) : List Link :=
  mapIdxFrom
    (fun i _ => { source := i, target := (i + 1) % nodes.length,
                  segmentOffsets := [] }) 0 nodes

/-- One link's offsets:
`Array.from({ length: segments + 1 }, () => [(Math.random() - 0.5) * maxOffset, (Math.random() - 0.5) * maxOffset])`
with `maxOffset = 20`; `rand` is the stream of `Math.random()` results
consumed by this link (two calls per waypoint). -/
def mkSegmentOffsets (rand : ℕ → ℝ) (numSegments : ℕ) : List (ℝ × ℝ) :=
  (List.range (numSegments + 1)).map fun k =>
    ((rand (2 * k) - 0.5) * 20, (rand (2 * k + 1) - 0.5) * 20)

/-- The pre-simulation loop
`links.forEach((link) => { link.segmentOffsets = Array.from(...) })`,
with `rand i` the random stream consumed while processing link `i`. -/
def attachOffsets (rand : ℕ → ℕ → ℝ) (numSegments : ℕ)
    (links : List Link) : List Link :=
  mapIdxFrom
    (fun i l => { l with segmentOffsets := mkSegmentOffsets (rand i) numSegments })
    0 links

/-- JS addition on possibly-NaN numbers (`none` = NaN; NaN propagates). -/
def jadd : Option ℝ → Option ℝ → Option ℝ
  | some a, some b => some (a + b)
  | _, _ => none

/-- JS subtraction on possibly-NaN numbers. -/
def jsub : Option ℝ → Option ℝ → Option ℝ
  | some a, some b => some (a - b)
  | _, _ => none

/-- JS multiplication on possibly-NaN numbers (`NaN * x = NaN`, even for
`x = 0`). -/
def jmul : Option ℝ → Option ℝ → Option ℝ
  | some a, some b => some (a * b)
  | _, _ => none

/-- The JS division `i / segments` of the waypoint loop, on natural
arguments. `0 / 0 = NaN` (`none`); that is the only zero-denominator case
the loop can reach (denominator `0` forces a single iteration `i = 0`). -/
noncomputable def jdivNat (i segs : ℕ) : Option ℝ :=
  if segs = 0 then none else some ((i : ℝ) / (segs : ℝ))

/-- The d3 curve factory selected by the generator
(`d3.line().curve(d3.curveCardinal)`): an interpolating cardinal spline
through all supplied points. -/
inductive CurveKind
  | cardinal
deriving DecidableEq

/-- The result of `multiSegmentWavyPathStable`: the waypoint list handed
to the d3 line generator, and the curve the generator is configured
with. The rendered SVG path string is produced by d3 (library code) from
exactly these data. -/
structure PathSpec where
  points : List (Option ℝ × Option ℝ)
  curve : CurveKind

/-- `multiSegmentWavyPathStable(source, target, segmentOffsets)`:
`segments = segmentOffsets.length - 1`; for `i = 0..segments`,
`t = i / segments`, waypoint
`(source.x + (target.x - source.x) * t + offsetX, source.y + (target.y - source.y) * t + offsetY)`;
the points are handed to a cardinal-curve line generator. The loop runs
`segmentOffsets.length` times (for an empty offsets list, `segments = -1`
and the loop body never runs, matching `List.range 0 = []`). -/
noncomputable def multiSegmentWavyPathStable (source target : Node)
    (segmentOffsets : List (ℝ × ℝ)) : PathSpec :=
  let segments := segmentOffsets.length - 1
  { points := (List.range segmentOffsets.length).map fun i =>
      let t := jdivNat i segments
      let off := segmentOffsets.getD i (0, 0)
      (jadd (jadd (some source.x) (jmul (jsub (some target.x) (some source.x)) t))
        (some off.1),
       jadd (jadd (some source.y) (jmul (jsub (some target.y) (some source.y)) t))
        (some off.2)),
    curve := CurveKind.cardinal }

/-- The registered `"snap"` force:
`nodes.forEach((node, i) => { node.vx = (node.vx || 0) + (target.x - node.x) * snapStrength; ... })`.
A d3 force callback is invoked with the current alpha; the source closure
takes no parameter and therefore ignores it. -/
def snapForce (tg : List (ℝ × ℝ)) (snapStrength : ℝ) (alpha : ℝ)
    (nodes : List Node) : List Node :=
  mapIdxFrom
    (fun i node =>
      let target := tg.getD i (0, 0)
      { node with
        vx := some (node.vx.getD 0 + (target.1 - node.x) * snapStrength),
        vy := some (node.vy.getD 0 + (target.2 - node.y) * snapStrength) })
    0 nodes

/-- `nodes.forEach((node, i) => { node.x = targets[i].x; node.y = targets[i].y; })`. -/
def initPositions (nodes : List Node) (tg : List (ℝ × ℝ)) : List Node :=
  mapIdxFrom
    (fun i node => { node with x := (tg.getD i (0, 0)).1, y := (tg.getD i (0, 0)).2 })
    0 nodes

/-- Simulation state. `running` records that the d3 simulation object was
constructed and its internal timer started (`d3.forceSimulation` starts
on creation); `alphaTarget` is d3's default `0`, `alpha` is set to `1`
and `alphaDecay` to `0.001` by the source. -/
structure SimState where
  nodes : List Node
  links : List Link
  alpha : ℝ
  alphaTarget : ℝ
  alphaDecay : ℝ
  running : Bool

/-- The initialization path of the effect body, in source order: compute
targets, build ring links, initialize node positions to their targets,
attach random segment offsets, construct the started simulation. There
is no validation branch anywhere in the source: every configuration
reaches the simulation construction. -/
noncomputable def start (cfg : Config) (data : List NodeData)
    (rand : ℕ → ℕ → ℝ) : SimState :=
  let nodes0 := data.map mkNode
  let n := nodes0.length
  let tg := targets cfg n
  let links0 := buildLinks nodes0
  let nodes1 := initPositions nodes0 tg
  let links1 := attachOffsets rand cfg.numSegments links0
  { nodes := nodes1, links := links1,
    alpha := 1, alphaTarget := 0, alphaDecay := 0.001, running := true }

/-- One simulation tick. d3 first updates
`alpha += (alphaTarget - alpha) * alphaDecay`, then runs the registered
forces in order — the library forces charge, center, collision (d3
internals reading and writing only node state, taken here as an opaque
pass `lib`) followed by the repository's snap closure — then the library
integrator folds velocities into positions (opaque pass `integrate`).
The `tick` handler `ticked` only reads state to set SVG attributes.
No per-tick code writes to any link. -/
def tick (lib : ℝ → List Node → List Node) (integrate : List Node → List Node)
    (tg : List (ℝ × ℝ)) (snapStrength : ℝ) (st : SimState) : SimState :=
  let a := st.alpha + (st.alphaTarget - st.alpha) * st.alphaDecay
  { st with
    alpha := a,
    nodes := integrate (snapForce tg snapStrength a (lib a st.nodes)) }

/-- The drag behavior of the source registers only two listeners:
`d3.drag().on("drag", ...).on("end", ...)`. There is no `"start"`
listener, so a drag-start event runs no handler and changes nothing. -/
def onDragStart (st : SimState) : SimState := st

/-- `.on("drag", (event, d) => { d.x = event.x; d.y = event.y; })`:
set the dragged node's position to the pointer position. `i` is the
index of the dragged datum. -/
def onDragMove (st : SimState) (i : ℕ) (px py : ℝ) : SimState :=
  { st with
    nodes := mapIdxFrom
      (fun j node => if j = i then { node with x := px, y := py } else node)
      0 st.nodes }

/-- `.on("end", (event, d) => { simulation.alphaTarget(0); })`. -/
def onDragEnd (st : SimState) : SimState := { st with alphaTarget := 0 }

/-- Accessing the computed target list: entry `i` (for `i < n`) is
`targetOf cfg n i`. -/
theorem getD_targets (cfg : Config) (n i : ℕ) (h : i < n) :
    (targets cfg n).getD i (0, 0) = targetOf cfg n i := by
  unfold targets
  rw [getD_mapIdxFrom _ 0 _ i (by simpa using h) (0, 0) 0]
  simp

/-- C1: for `n ≥ 2` the computed target of node `i` is
`(cx + r·cos(2πi/n), cy + r·sin(2πi/n))` with `(cx, cy)` the canvas center
and `r = min(width, height) · radiusFactor`; for `n = 5`, center
`(600, 500)`, `r = 400` (the source config) this gives
`target 0 = (1000, 500)` and `target 1 = (600 + 400·cos 72°, 500 + 400·sin 72°)`
(`72° = 2π/5`). -/
theorem targets_on_circle (cfg : Config) (n i : ℕ) (hn : 2 ≤ n) (hi : i < n) :
    (targets cfg n).getD i (0, 0) =
      (cfg.width / 2 +
        min cfg.width cfg.height * cfg.radiusFactor *
          Real.cos (2 * Real.pi * i / n),
       cfg.height / 2 +
        min cfg.width cfg.height * cfg.radiusFactor *
          Real.sin (2 * Real.pi * i / n)) ∧
    (targets config 5).getD 0 (0, 0) = (1000, 500) ∧
    (targets config 5).getD 1 (0, 0) =
      (600 + 400 * Real.cos (2 * Real.pi / 5),
       500 + 400 * Real.sin (2 * Real.pi / 5)) := by
  refine ⟨?_, ?_, ?_⟩
  · rw [getD_targets cfg n i hi]
    unfold targetOf
    have harg : ((i : ℝ) / (n : ℝ)) * 2 * Real.pi = 2 * Real.pi * i / n := by
      ring
    rw [harg]
  · rw [getD_targets config 5 0 (by norm_num)]
    unfold targetOf config
    norm_num
  · rw [getD_targets config 5 1 (by norm_num)]
    unfold targetOf config
    norm_num
    constructor
    · congr 1
      ring
    · congr 1
      ring

/-- Witness for `targets_on_circle` at `n = 5`, `i = 0`. -/
theorem targets_on_circle_witness :
    (2 ≤ 5 ∧ 0 < 5) ∧ (targets config 5).getD 0 (0, 0) = (1000, 500) :=
  ⟨⟨by decide, by decide⟩, (targets_on_circle config 5 0 (by decide) (by decide)).2.1⟩

/-- A concrete one-node state for instantiating universally quantified
theorems: a node at `(3, 4)` with `vx = 1`, `vy` undefined. -/
def sampleNodes : List Node :=
  [{ id := "n0", title := "Node 0", image := "img0",
     x := 3, y := 4, vx := some 1, vy := none }]

/-- A concrete target list matching `sampleNodes`. -/
def sampleTargets : List (ℝ × ℝ) := [(10, 20)]

/-- A fixed stand-in for the `Math.random()` streams in concrete
scenarios. -/
def oneRand : ℕ → ℕ → ℝ := fun _ _ => 1

/-- The element of `snapForce`'s output at a valid index, as a record. -/
theorem getD_snapForce (tg : List (ℝ × ℝ)) (s alpha : ℝ) (nodes : List Node)
    (i : ℕ) (hi : i < nodes.length) :
    (snapForce tg s alpha nodes).getD i default =
      { id := (nodes.getD i default).id,
        title := (nodes.getD i default).title,
        image := (nodes.getD i default).image,
        x := (nodes.getD i default).x,
        y := (nodes.getD i default).y,
        vx := some ((nodes.getD i default).vx.getD 0 +
          ((tg.getD i (0, 0)).1 - (nodes.getD i default).x) * s),
        vy := some ((nodes.getD i default).vy.getD 0 +
          ((tg.getD i (0, 0)).2 - (nodes.getD i default).y) * s) } := by
  unfold snapForce
  rw [getD_mapIdxFrom _ 0 nodes i hi default default]
  simp only [Nat.zero_add]

/-- C2: the snap force adds exactly `snapStrength · (target − position)`
to every node's velocity (the source writes the product as
`(target.x − node.x) * snapStrength`, equal by commutativity); its output
does not depend on the alpha d3 hands the force callback; and a node
whose position equals its target receives a zero velocity delta. -/
theorem snap_velocity_delta (tg : List (ℝ × ℝ)) (s alpha : ℝ)
    (nodes : List Node) (i : ℕ) (hi : i < nodes.length) :
    (((snapForce tg s alpha nodes).getD i default).vx.getD 0 =
        (nodes.getD i default).vx.getD 0 +
          s * ((tg.getD i (0, 0)).1 - (nodes.getD i default).x) ∧
      ((snapForce tg s alpha nodes).getD i default).vy.getD 0 =
        (nodes.getD i default).vy.getD 0 +
          s * ((tg.getD i (0, 0)).2 - (nodes.getD i default).y)) ∧
    (∀ a2 : ℝ, snapForce tg s a2 nodes = snapForce tg s alpha nodes) ∧
    ((nodes.getD i default).x = (tg.getD i (0, 0)).1 →
      (nodes.getD i default).y = (tg.getD i (0, 0)).2 →
      ((snapForce tg s alpha nodes).getD i default).vx =
          some ((nodes.getD i default).vx.getD 0) ∧
        ((snapForce tg s alpha nodes).getD i default).vy =
          some ((nodes.getD i default).vy.getD 0)) := by
  have hpt := getD_snapForce tg s alpha nodes i hi
  refine ⟨⟨?_, ?_⟩, fun a2 => rfl, fun hx hy => ⟨?_, ?_⟩⟩
  · rw [hpt]; simp; ring
  · rw [hpt]; simp; ring
  · rw [hpt, hx]; simp
  · rw [hpt, hy]; simp

/-- Witness for `snap_velocity_delta` on the concrete one-node state. -/
theorem snap_velocity_delta_witness :
    0 < sampleNodes.length ∧
    ((snapForce sampleTargets 2 1 sampleNodes).getD 0 default).vx.getD 0 =
      (sampleNodes.getD 0 default).vx.getD 0 +
        2 * ((sampleTargets.getD 0 (0, 0)).1 - (sampleNodes.getD 0 default).x) :=
  ⟨by decide, (snap_velocity_delta sampleTargets 2 1 sampleNodes 0 (by decide)).1.1⟩

/-- The source configuration altered to an invalid `radiusFactor = −1`
(so the ring radius `min(width, height) · radiusFactor` is ≤ 0). -/
def badConfig : Config :=
  { width := 1200, height := 1000, nodeSize := 60, radiusFactor := -1,
    collisionPadding := 5, snapStrength := 0.03, jitterStrength := 0.01,
    numSegments := 6 }

/-- C5 counterexample: with `radiusFactor = −1 ≤ 0` the effect body still
constructs and starts the simulation — there is no validation or
rejection path anywhere in the source, so the claimed invalid-config
error does not exist. -/
theorem start_accepts_invalid_config :
    badConfig.radiusFactor ≤ 0 ∧
    (start badConfig placeholderNodes oneRand).running = true := by
  constructor
  · norm_num [badConfig]
  · rfl

/-- C5 amended: `start` performs no configuration validation — for every
configuration (including `radiusFactor ≤ 0` or `nodeSize ≤ 0`) and every
dataset, the simulation is constructed and started, and ticks run under
it. -/
theorem start_never_rejects (cfg : Config) (data : List NodeData)
    (rand : ℕ → ℕ → ℝ) : (start cfg data rand).running = true := rfl

/-- C6 counterexample: for a one-node dataset the ring map
`i → (i + 1) mod n` is not omitted: it produces exactly one link, a
self-link from node 0 to itself. -/
theorem single_node_self_link :
    buildLinks [mkNode ⟨"n0", "Node 0", "https://placehold.co/60x60"⟩] =
      [{ source := 0, target := 0, segmentOffsets := [] }] ∧
    (buildLinks [mkNode ⟨"n0", "Node 0", "https://placehold.co/60x60"⟩]).length ≠ 0 := by
  exact ⟨rfl, by decide⟩

/-- C6 amended: link synthesis maps every node to a link, so it produces
zero links for `n = 0` but one self-link (node 0 → node 0) for `n = 1`;
in general exactly `n` links are produced. -/
theorem links_per_node :
    buildLinks [] = [] ∧
    (∀ nd : Node,
      buildLinks [nd] = [{ source := 0, target := 0, segmentOffsets := [] }]) ∧
    ∀ nodes : List Node, (buildLinks nodes).length = nodes.length := by
  refine ⟨rfl, fun nd => by simp [buildLinks, mapIdxFrom], fun nodes => ?_⟩
  unfold buildLinks
  exact length_mapIdxFrom _ 0 nodes

/-- A concrete source node at `(0, 0)` for concrete path scenarios. -/
def sampleSource : Node :=
  { id := "a", title := "A", image := "ia", x := 0, y := 0, vx := none, vy := none }

/-- A concrete target node at `(10, 0)` for concrete path scenarios. -/
def sampleTarget : Node :=
  { id := "b", title := "B", image := "ib", x := 10, y := 0, vx := none, vy := none }

/-- Waypoint `i` of the generated path at any valid index, in terms of
the JS arithmetic operations. -/
theorem getD_wavy_points (source target : Node) (offs : List (ℝ × ℝ))
    (i : ℕ) (hi : i < offs.length) :
    (multiSegmentWavyPathStable source target offs).points.getD i (none, none) =
      (jadd (jadd (some source.x)
          (jmul (jsub (some target.x) (some source.x))
            (jdivNat i (offs.length - 1))))
        (some (offs.getD i (0, 0)).1),
       jadd (jadd (some source.y)
          (jmul (jsub (some target.y) (some source.y))
            (jdivNat i (offs.length - 1))))
        (some (offs.getD i (0, 0)).2)) := by
  unfold multiSegmentWavyPathStable
  rw [List.getD_eq_getElem _ _ (by simpa using hi)]
  simp

/-- C3: for `segments ≥ 1` (where `segments = segmentOffsets.length − 1`)
the generated path consists of `segments + 1` waypoints, waypoint `i`
equals the linear interpolation between the source and target positions
at `t = i / segments` plus the `i`-th fixed offset, and the waypoints
are handed to the cardinal interpolating curve generator. -/
theorem wavy_path_waypoints (source target : Node) (offs : List (ℝ × ℝ))
    (hseg : 1 ≤ offs.length - 1) (i : ℕ) (hi : i ≤ offs.length - 1) :
    (multiSegmentWavyPathStable source target offs).points.length =
      (offs.length - 1) + 1 ∧
    (multiSegmentWavyPathStable source target offs).points.getD i (none, none) =
      (some (source.x + (target.x - source.x) *
          ((i : ℝ) / ((offs.length - 1 : ℕ) : ℝ)) + (offs.getD i (0, 0)).1),
       some (source.y + (target.y - source.y) *
          ((i : ℝ) / ((offs.length - 1 : ℕ) : ℝ)) + (offs.getD i (0, 0)).2)) ∧
    (multiSegmentWavyPathStable source target offs).curve = CurveKind.cardinal := by
  have hlen : 2 ≤ offs.length := by omega
  refine ⟨?_, ?_, rfl⟩
  · simp [multiSegmentWavyPathStable]
    omega
  · rw [getD_wavy_points source target offs i (by omega)]
    have hne : offs.length - 1 ≠ 0 := by omega
    simp [jdivNat, hne, jadd, jsub, jmul]

/-- Witness for `wavy_path_waypoints` with two offsets (one segment). -/
theorem wavy_path_waypoints_witness :
    (1 ≤ ([((1 : ℝ), (2 : ℝ)), (3, 4)] : List (ℝ × ℝ)).length - 1 ∧
      1 ≤ ([((1 : ℝ), (2 : ℝ)), (3, 4)] : List (ℝ × ℝ)).length - 1) ∧
    (multiSegmentWavyPathStable sampleSource sampleTarget
      [(1, 2), (3, 4)]).curve = CurveKind.cardinal :=
  ⟨⟨by decide, by decide⟩,
    (wavy_path_waypoints sampleSource sampleTarget [(1, 2), (3, 4)]
      (by decide) 1 (by decide)).2.2⟩

/-- C9 counterexample: for `segments = 0` (a single offset pair) the
single computed waypoint is NaN in both coordinates — the JS loop
computes `t = 0 / 0 = NaN`, which propagates — so the path is not a
straight or single-point line between the source `(0, 0)` and the target
`(10, 0)`: its one point is not a real point at all. -/
theorem wavy_path_zero_segments_nan :
    (multiSegmentWavyPathStable sampleSource sampleTarget [(1, 2)]).points =
      [(none, none)] := by
  simp [multiSegmentWavyPathStable, jdivNat, jadd, jsub, jmul]

/-- C9 amended: for every source, target and single-element offsets list
(`segments = 0`), the waypoint loop divides `0 / 0` (JS NaN), so the
generated path degenerates to a single waypoint with NaN coordinates
rather than a point between source and target. -/
theorem wavy_path_zero_segments (source target : Node) (off : ℝ × ℝ) :
    (multiSegmentWavyPathStable source target [off]).points = [(none, none)] := by
  simp [multiSegmentWavyPathStable, jdivNat, jadd, jsub, jmul]

/-- Every member of an index-carrying map is the image of some index and
element. -/
theorem mem_mapIdxFrom {f : ℕ → α → β} :
    ∀ {k : ℕ} {l : List α} {b : β}, b ∈ mapIdxFrom f k l → ∃ i a, b = f i a := by
  intro k l
  induction l generalizing k with
  | nil => intro b hb; simp [mapIdxFrom] at hb
  | cons a l ih =>
    intro b hb
    simp only [mapIdxFrom, List.mem_cons] at hb
    rcases hb with h | h
    · exact ⟨k, a, h⟩
    · exact ih h

/-- C4: every link emerging from the offset-attachment loop carries
exactly `numSegments + 1` segment offsets, and no per-tick operation
modifies any link: a tick — library forces, the snap force, integration,
and the read-only `ticked` path regeneration — maps the link list to
itself, whatever the library passes do to the nodes. -/
theorem segmentOffsets_stable (rand : ℕ → ℕ → ℝ) (ns : ℕ)
    (links : List Link) (l : Link)
    (hl : l ∈ attachOffsets rand ns links) :
    l.segmentOffsets.length = ns + 1 ∧
    ∀ (lib : ℝ → List Node → List Node) (integrate : List Node → List Node)
      (tg : List (ℝ × ℝ)) (s : ℝ) (st : SimState),
      (tick lib integrate tg s st).links = st.links := by
  constructor
  · simp only [attachOffsets] at hl
    obtain ⟨i, a, rfl⟩ := mem_mapIdxFrom hl
    simp [mkSegmentOffsets]
  · intro lib integrate tg s st
    rfl

/-- A bare link for concrete scenarios. -/
def sampleLink : Link := { source := 0, target := 0, segmentOffsets := [] }

/-- Witness for `segmentOffsets_stable` on a one-link list with the
source value `numSegments = 6`. -/
theorem segmentOffsets_stable_witness :
    ((attachOffsets oneRand 6 [sampleLink]).getD 0 default ∈
        attachOffsets oneRand 6 [sampleLink]) ∧
    ((attachOffsets oneRand 6 [sampleLink]).getD 0 default).segmentOffsets.length =
      6 + 1 :=
  ⟨by simp [attachOffsets, mapIdxFrom],
   (segmentOffsets_stable oneRand 6 [sampleLink] _
      (by simp [attachOffsets, mapIdxFrom])).1⟩

/-- C7: the source's drag behavior registers only `"drag"` and `"end"`
listeners. A drag-start therefore runs no handler at all: it leaves the
whole simulation state — in particular `alphaTarget`, still at its
initial value `0` — unchanged, rather than raising it above `0`. The
`"end"` listener sets `alphaTarget` to `0`. Evaluated on the freshly
started source configuration. -/
theorem drag_start_does_not_warm :
    (onDragStart (start config placeholderNodes oneRand)).alphaTarget = 0 ∧
    ¬ 0 < (onDragStart (start config placeholderNodes oneRand)).alphaTarget ∧
    (onDragEnd (onDragStart (start config placeholderNodes oneRand))).alphaTarget = 0 ∧
    ∀ st : SimState, onDragStart st = st := by
  refine ⟨rfl, ?_, rfl, fun st => rfl⟩
  rw [show (onDragStart (start config placeholderNodes oneRand)).alphaTarget =
        (0 : ℝ) from rfl]
  exact lt_irrefl 0

/-- C8: the `"drag"` listener sets the dragged node's position to exactly
the pointer position, leaves the node's velocity fields untouched (the
position is written directly, not through forces or velocity), leaves
every other node identical, and modifies nothing else in the simulation
state. -/
theorem drag_move_sets_position (st : SimState) (i : ℕ) (px py : ℝ)
    (hi : i < st.nodes.length) :
    ((onDragMove st i px py).nodes.getD i default).x = px ∧
    ((onDragMove st i px py).nodes.getD i default).y = py ∧
    ((onDragMove st i px py).nodes.getD i default).vx =
      (st.nodes.getD i default).vx ∧
    ((onDragMove st i px py).nodes.getD i default).vy =
      (st.nodes.getD i default).vy ∧
    (∀ j : ℕ, j ≠ i →
      (onDragMove st i px py).nodes.getD j default = st.nodes.getD j default) ∧
    (onDragMove st i px py).links = st.links ∧
    (onDragMove st i px py).alpha = st.alpha ∧
    (onDragMove st i px py).alphaTarget = st.alphaTarget := by
  have hlen : (onDragMove st i px py).nodes.length = st.nodes.length := by
    simp [onDragMove, length_mapIdxFrom]
  have hacc : ∀ j, j < st.nodes.length →
      (onDragMove st i px py).nodes.getD j default =
        if j = i then { st.nodes.getD j default with x := px, y := py }
        else st.nodes.getD j default := by
    intro j hj
    unfold onDragMove
    rw [getD_mapIdxFrom _ 0 st.nodes j hj default default]
    simp only [Nat.zero_add]
  refine ⟨?_, ?_, ?_, ?_, ?_, rfl, rfl, rfl⟩
  · rw [hacc i hi]; simp
  · rw [hacc i hi]; simp
  · rw [hacc i hi]; simp
  · rw [hacc i hi]; simp
  · intro j hj
    by_cases hlt : j < st.nodes.length
    · rw [hacc j hlt, if_neg hj]
    · push_neg at hlt
      rw [List.getD_eq_default _ _ (by rw [hlen]; exact hlt),
        List.getD_eq_default _ _ hlt]

/-- The initialization path preserves the node count. -/
theorem start_nodes_length (cfg : Config) (data : List NodeData)
    (rand : ℕ → ℕ → ℝ) : (start cfg data rand).nodes.length = data.length := by
  have hnodes : (start cfg data rand).nodes =
      initPositions (data.map mkNode) (targets cfg (data.map mkNode).length) := rfl
  rw [hnodes]
  unfold initPositions
  rw [length_mapIdxFrom]
  simp

/-- Witness for `drag_move_sets_position` on the started source state. -/
theorem drag_move_sets_position_witness :
    0 < (start config placeholderNodes oneRand).nodes.length ∧
    ((onDragMove (start config placeholderNodes oneRand) 0 7 8).nodes.getD 0
      default).x = 7 :=
  ⟨by rw [start_nodes_length]; decide,
   (drag_move_sets_position (start config placeholderNodes oneRand) 0 7 8
      (by rw [start_nodes_length]; decide)).1⟩

/-- C10: in the state `start` hands to the simulation — before any tick
runs — every node's position equals its computed circular target. -/
theorem initial_positions_at_targets (cfg : Config) (data : List NodeData)
    (rand : ℕ → ℕ → ℝ) (i : ℕ) (hi : i < data.length) :
    ((start cfg data rand).nodes.getD i default).x =
      (targetOf cfg data.length i).1 ∧
    ((start cfg data rand).nodes.getD i default).y =
      (targetOf cfg data.length i).2 := by
  have hnodes : (start cfg data rand).nodes =
      initPositions (data.map mkNode) (targets cfg (data.map mkNode).length) := rfl
  have hacc : (start cfg data rand).nodes.getD i default =
      { (data.map mkNode).getD i default with
        x := ((targets cfg data.length).getD i (0, 0)).1,
        y := ((targets cfg data.length).getD i (0, 0)).2 } := by
    rw [hnodes]
    unfold initPositions
    rw [getD_mapIdxFrom _ 0 _ i (by simpa using hi) default default]
    simp only [Nat.zero_add, List.length_map]
  rw [hacc, getD_targets cfg data.length i hi]
  exact ⟨rfl, rfl⟩

/-- Witness for `initial_positions_at_targets` on the source dataset. -/
theorem initial_positions_at_targets_witness :
    0 < placeholderNodes.length ∧
    ((start config placeholderNodes oneRand).nodes.getD 0 default).x =
      (targetOf config placeholderNodes.length 0).1 :=
  ⟨by decide,
   (initial_positions_at_targets config placeholderNodes oneRand 0 (by decide)).1⟩

end ForceTest
